import Mathlib

/-!
Monochrome LCD drivers: ST7565 (paged) and SSD1306 (linear).

A shallow embedding of `src/st7565/src/mono_lcd_lib_st7565.cpp` and
`src/ssd1306/mono_lcd_lib_ssd1306.cpp`.

* Bytes (`uint8_t`) are natural numbers; every store into a byte is reduced `% 256`.
* The pixel buffer and the scratch row are lists of bytes, read with `List.getD`.
* The serial bus is a log of the transfers issued so far; the transfer issued when
  `n` transfers are in the log receives the result `bus n` of an arbitrary function
  `bus : Nat → BaseResult`.
* The control lines are booleans (`true` = line set / high, `false` = line reset / low).
* The mutex is a boolean (`true` = held).  Taking a held mutex with `portMAX_DELAY`
  never returns; this is the `none` outcome of the operations.
-/

namespace MonoLcd

/-! Section: Result codes and the bus -/

/-- Modelled from the spec: the result enumeration (`McHardwareInterfaces::BaseResult`,
`BASE_RESULT`) is declared in a header that is not part of the sources.  Following the
error taxonomy of the spec there is success, the not-initialized condition and an
uninterpreted bus timeout / bus error code. -/
inductive BaseResult where
  | OK
  | ERROR_INIT
  | BUS_ERROR (code : Nat)
  deriving DecidableEq, Repr

/-- One call of the bus transport as seen on the wire, together with the level of the
command/data line (`a0` for the ST7565, `dc` for the SSD1306) and of the select line
at the moment of the call.  `tx` is the burst write `tx(ptr, len, timeout)`, `txOneItem`
the repeated-byte write `txOneItem(item, count, timeout)`. -/
inductive Transfer where
  | tx (a0 cs : Bool) (bytes : List Nat) (timeout : Nat)
  | txOneItem (a0 cs : Bool) (item count timeout : Nat)
  deriving DecidableEq, Repr

/-! Section: ST7565: orientation modes and the page encoder -/

/-- Modelled from the spec: the enumeration `ST7565_MODE` is declared in the header
`mono_lcd_lib_st7565.h`, which is not part of the sources; the four enumerators are the
ones named in `ST7565::update`. -/
inductive ST7565_MODE where
  | STANDARD
  | IVERT_X
  | IVERT_Y
  | IVERT_X_AMD_Y
  deriving DecidableEq, Repr

open ST7565_MODE

/-- Source offset `us_p_string` of `ST7565::update` (lines 146-151).  The loop bounds
give `page_l < 8` and `string_l < 8`, so the subtractions do not wrap. -/
def us_p_string (mode : ST7565_MODE) (page_l string_l : Nat) : Nat :=
  if mode = IVERT_Y ∨ mode = IVERT_X_AMD_Y then
    (7 - page_l) * 128 + (7 - string_l) * 16
  else
    page_l * 128 + string_l * 16

/-- The value `((userBuf[us_p_string + column_l / 8] >> (column_l % 8)) & 1) << string_l`. -/
def shiftedBit (userBuf : List Nat) (us string_l column_l : Nat) : Nat :=
  (((userBuf.getD (us + column_l / 8) 0) >>> (column_l % 8)) &&& 1) <<< string_l

/-- The compound assignment `lcdImage[i] |= v` on a `uint8_t` array. -/
def orAssign (lcdImage : List Nat) (i v : Nat) : List Nat :=
  lcdImage.set i ((lcdImage.getD i 0 ||| v) % 256)

/-- Body of the `column_l` loop: the `switch` of lines 153-164. -/
def columnStep (mode : ST7565_MODE) (userBuf : List Nat) (us string_l : Nat)
    (lcdImage : List Nat) (column_l : Nat) : List Nat :=
  match mode with
  | STANDARD | IVERT_Y =>
    orAssign lcdImage column_l (shiftedBit userBuf us string_l column_l)
  | IVERT_X | IVERT_X_AMD_Y =>
    orAssign lcdImage (127 - column_l) (shiftedBit userBuf us string_l column_l)

/-- Body of the `string_l` loop (lines 145-166): compute `us_p_string`, then run the
`column_l` loop over `0 .. 127`. -/
def stringStep (mode : ST7565_MODE) (userBuf : List Nat) (page_l : Nat)
    (lcdImage : List Nat) (string_l : Nat) : List Nat :=
  (List.range 128).foldl
    (columnStep mode userBuf (us_p_string mode page_l string_l) string_l) lcdImage

/-- The row that `ST7565::update` builds for page `page_l` (lines 143-166):
`memset(lcdImage, 0, 128)` followed by the `string_l` loop over `0 .. 7`. -/
@[irreducible]
def encodePage (mode : ST7565_MODE) (userBuf : List Nat) (page_l : Nat) : List Nat :=
  (List.range 8).foldl (stringStep mode userBuf page_l) (List.replicate 128 0)

/-- Output byte index written for source column `c` (`column_l` or `127 - column_l`). -/
def dstColumn (mode : ST7565_MODE) (c : Nat) : Nat :=
  match mode with
  | STANDARD | IVERT_Y => c
  | IVERT_X | IVERT_X_AMD_Y => 127 - c

/-- Bus results: the transfer issued when `n` transfers are already in the log
receives `bus n`. -/
abbrev Bus := Nat → BaseResult

/-- Modelled from the spec: the early-exit test `checkResultAndBreak(r)` comes from a
header that is not part of the sources.  It leaves the innermost enclosing loop when
`r` is not success ("any command's failure aborts the remaining commands"); the value
is `true` when the `break` is taken. -/
def checkResultAndBreak (r : BaseResult) : Bool :=
  decide (r ≠ BaseResult.OK)

/-- Modelled from the spec: the early-return test `check_result(r)` comes from a header
that is not part of the sources.  It returns `r` from the enclosing function when `r`
is not success ("any bus failure during the init burst is surfaced without setting
ready"); the value is `true` when the `return` is taken. -/
def check_result (r : BaseResult) : Bool :=
  decide (r ≠ BaseResult.OK)

/-! Section: ST7565 driver (Family P) -/

/-- The command constants of `mono_lcd_lib_st7565_cmd.h`.  The header is not part of the
sources, so the values are parameters of the model. -/
structure ST7565Cmd where
  CMD_SET_VOLUME_FIRST : Nat
  CMD_SET_VOLUME_SECOND : Nat
  CMD_SET_BIAS_9 : Nat
  CMD_SET_ADC_REVERSE : Nat
  CMD_SET_COM_NORMAL : Nat
  CMD_SET_DISP_START_LINE : Nat
  CMD_SET_POWER_CONTROL : Nat
  CMD_SET_RESISTOR_RATIO : Nat
  CMD_SET_ALLPTS_NORMAL : Nat
  CMD_DISPLAY_ON : Nat
  CMD_DISPLAY_OFF : Nat
  CMD_SET_PAGE : Nat
  CMD_SET_COLUMN_UPPER : Nat
  deriving DecidableEq, Repr

/-- State of one `ST7565` object and of the hardware it drives: the configured mode, the
user buffer, the scratch row `lcdImage`, the lines `a0`, `cs`, `res`, the mutex `m`
(`true` = held) and the log of bus transfers. -/
structure ST7565 where
  mode : ST7565_MODE
  userBuf : List Nat
  lcdImage : List Nat
  a0 : Bool
  cs : Bool
  res : Bool
  m : Bool
  log : List Transfer
  deriving DecidableEq, Repr

namespace ST7565

/-- Blocking take with `portMAX_DELAY`: succeeds on a free mutex, never returns
(`none`) on a held one. -/
def USER_OS_TAKE_MUTEX (st : ST7565) : Option ST7565 :=
  if st.m then none else some { st with m := true }

/-- Release of the mutex. -/
def USER_OS_GIVE_MUTEX (st : ST7565) : ST7565 :=
  { st with m := false }

/-- Delay primitive; time is not part of the state. -/
def USER_OS_DELAY_MS (st : ST7565) (_ms : Nat) : ST7565 := st

/-- Burst write `cfg->s->tx(data, len, timeout)`. -/
def tx (bus : Bus) (st : ST7565) (data : List Nat) (len timeout : Nat) :
    ST7565 × BaseResult :=
  ({ st with log := st.log ++ [Transfer.tx st.a0 st.cs (data.take len) timeout] },
    bus st.log.length)

/-- Repeated-byte write `cfg->s->txOneItem(item, count, timeout)`. -/
def txOneItem (bus : Bus) (st : ST7565) (item count timeout : Nat) :
    ST7565 × BaseResult :=
  ({ st with log := st.log ++ [Transfer.txOneItem st.a0 st.cs (item % 256) count timeout] },
    bus st.log.length)

/-- Source function `ST7565::comOut` (lines 18-24); the argument is converted to `uint8_t`. -/
def comOut (bus : Bus) (st : ST7565) (command : Nat) : ST7565 × BaseResult :=
  let st := { st with a0 := false }
  let st := { st with cs := false }
  let p := tx bus st [command % 256] 1 100
  let st := { p.1 with cs := true }
  (st, p.2)

/-- Source function `ST7565::dataOut` (lines 26-32). -/
def dataOut (bus : Bus) (st : ST7565) (data : Nat) : ST7565 × BaseResult :=
  let st := { st with a0 := true }
  let st := { st with cs := false }
  let p := tx bus st [data % 256] 1 100
  let st := { p.1 with cs := true }
  (st, p.2)

/-- Body of `ST7565::setContrast` between take and give (lines 40-44). -/
def setContrastBody (bus : Bus) (cmd : ST7565Cmd) (st : ST7565) (val : Nat) :
    ST7565 × BaseResult :=
  let p := comOut bus st cmd.CMD_SET_VOLUME_FIRST
  if checkResultAndBreak p.2 then p else
  comOut bus p.1 (cmd.CMD_SET_VOLUME_SECOND ||| (val &&& 0x3f))

/-- Source function `ST7565::setContrast` (lines 35-49). -/
def setContrast (bus : Bus) (cmd : ST7565Cmd) (st : ST7565) (val : Nat) :
    Option (ST7565 × BaseResult) :=
  match USER_OS_TAKE_MUTEX st with
  | none => none
  | some st =>
    let p := setContrastBody bus cmd st val
    some (USER_OS_GIVE_MUTEX p.1, p.2)

/-- Body of `ST7565::reset` between take and give (lines 56-99). -/
def resetBody (bus : Bus) (cmd : ST7565Cmd) (st : ST7565) : ST7565 × BaseResult :=
  let st := { st with cs := true }
  let st := { st with res := false }
  let st := USER_OS_DELAY_MS st 5
  let st := { st with res := true }
  let st := USER_OS_DELAY_MS st 5
  let p := comOut bus st cmd.CMD_SET_BIAS_9
  if checkResultAndBreak p.2 then p else
  let p := comOut bus p.1 cmd.CMD_SET_ADC_REVERSE
  if checkResultAndBreak p.2 then p else
  let p := comOut bus p.1 cmd.CMD_SET_COM_NORMAL
  if checkResultAndBreak p.2 then p else
  let p := comOut bus p.1 cmd.CMD_SET_DISP_START_LINE
  if checkResultAndBreak p.2 then p else
  let p := comOut bus p.1 (cmd.CMD_SET_POWER_CONTROL ||| 0x4)
  if checkResultAndBreak p.2 then p else
  let st := USER_OS_DELAY_MS p.1 5
  let p := comOut bus st (cmd.CMD_SET_POWER_CONTROL ||| 0x6)
  if checkResultAndBreak p.2 then p else
  let st := USER_OS_DELAY_MS p.1 5
  let p := comOut bus st (cmd.CMD_SET_POWER_CONTROL ||| 0x7)
  if checkResultAndBreak p.2 then p else
  let st := USER_OS_DELAY_MS p.1 1
  let p := comOut bus st (cmd.CMD_SET_RESISTOR_RATIO ||| 0x6)
  if checkResultAndBreak p.2 then p else
  comOut bus p.1 cmd.CMD_SET_ALLPTS_NORMAL

/-- Source function `ST7565::reset` (lines 51-104). -/
def reset (bus : Bus) (cmd : ST7565Cmd) (st : ST7565) : Option (ST7565 × BaseResult) :=
  match USER_OS_TAKE_MUTEX st with
  | none => none
  | some st =>
    let p := resetBody bus cmd st
    some (USER_OS_GIVE_MUTEX p.1, p.2)

/-- Source function `ST7565::on` (lines 106-115); `on` is a reserved word, hence the underscore. -/
def on_ (bus : Bus) (cmd : ST7565Cmd) (st : ST7565) : Option (ST7565 × BaseResult) :=
  match USER_OS_TAKE_MUTEX st with
  | none => none
  | some st =>
    let p := comOut bus st cmd.CMD_DISPLAY_ON
    some (USER_OS_GIVE_MUTEX p.1, p.2)

/-- Source function `ST7565::off` (lines 117-126). -/
def off (bus : Bus) (cmd : ST7565Cmd) (st : ST7565) : Option (ST7565 × BaseResult) :=
  match USER_OS_TAKE_MUTEX st with
  | none => none
  | some st =>
    let p := comOut bus st cmd.CMD_DISPLAY_OFF
    some (USER_OS_GIVE_MUTEX p.1, p.2)

/-- The `page_l` loop of `ST7565::update` (lines 134-172) over the remaining pages.
The second component of the argument is the current value of `r`; a taken
`checkResultAndBreak` ends the loop at once. -/
def updateLoop (bus : Bus) (cmd : ST7565Cmd) : List Nat → ST7565 × BaseResult →
    ST7565 × BaseResult
  | [], p => p
  | page_l :: rest, p =>
    let p := comOut bus p.1 (cmd.CMD_SET_PAGE ||| page_l)
    if checkResultAndBreak p.2 then p else
    let p := comOut bus p.1 cmd.CMD_SET_COLUMN_UPPER
    if checkResultAndBreak p.2 then p else
    let st := { p.1 with a0 := true }
    let st := { st with cs := false }
    let st := { st with lcdImage := encodePage st.mode st.userBuf page_l }
    let p := tx bus st st.lcdImage 128 100
    if checkResultAndBreak p.2 then p else
    let st := { p.1 with cs := true }
    updateLoop bus cmd rest (st, p.2)

/-- Source function `ST7565::update` (lines 128-178).  The local `r` is not initialised in the source;
the loop assigns it in its first iteration, so its start value is never returned. -/
def update (bus : Bus) (cmd : ST7565Cmd) (st : ST7565) : Option (ST7565 × BaseResult) :=
  match USER_OS_TAKE_MUTEX st with
  | none => none
  | some st =>
    let p := updateLoop bus cmd (List.range 8) (st, BaseResult.OK)
    some (USER_OS_GIVE_MUTEX p.1, p.2)

/-- The `p` loop of `ST7565::lcdClear` (lines 188-199), with `buf = 0`. -/
def lcdClearLoop (bus : Bus) (cmd : ST7565Cmd) (buf : Nat) : List Nat →
    ST7565 × BaseResult → ST7565 × BaseResult
  | [], q => q
  | p :: rest, q =>
    let q := comOut bus q.1 (cmd.CMD_SET_PAGE ||| p)
    if checkResultAndBreak q.2 then q else
    let q := comOut bus q.1 cmd.CMD_SET_COLUMN_UPPER
    if checkResultAndBreak q.2 then q else
    let st := { q.1 with a0 := true }
    let st := { st with cs := false }
    let q := txOneItem bus st buf 128 100
    if checkResultAndBreak q.2 then q else
    let st := { q.1 with cs := true }
    lcdClearLoop bus cmd buf rest (st, q.2)

/-- Source function `ST7565::lcdClear` (lines 180-205). -/
def lcdClear (bus : Bus) (cmd : ST7565Cmd) (st : ST7565) : Option (ST7565 × BaseResult) :=
  match USER_OS_TAKE_MUTEX st with
  | none => none
  | some st =>
    let q := lcdClearLoop bus cmd 0 (List.range 8) (st, BaseResult.OK)
    some (USER_OS_GIVE_MUTEX q.1, q.2)

/-- Source function `ST7565::bufClear` (lines 207-213): `memset(userBuf, 0, 1024)` under the mutex. -/
def bufClear (st : ST7565) : Option ST7565 :=
  match USER_OS_TAKE_MUTEX st with
  | none => none
  | some st =>
    let st := { st with userBuf := List.replicate 1024 0 ++ st.userBuf.drop 1024 }
    some (USER_OS_GIVE_MUTEX st)

end ST7565

/-! Section: SSD1306 driver (Family L) -/

/-- The table `ssd1306_init_command` (lines 9-14). -/
def ssd1306_init_command : List Nat :=
  [0xAE, 0x20, 0x10, 0xb0, 0xc8, 0x00, 0x10, 0x40,
   0x81, 0xff, 0xa1, 0xa6, 0xa8, 0x3F, 0xa4, 0xd3,
   0x00, 0xd5, 0xf0, 0xd9, 0x22, 0xda, 0x12, 0xdb,
   0x20, 0x8d, 0x14, 0xaf]

/-- State of one `mono_lcd_lib_ssd1306` object and of the hardware it drives: the pixel
buffer, the ready flag, the lines `dc`, `cs`, `res`, the mutex (`true` = held) and the
log of bus transfers. -/
structure mono_lcd_lib_ssd1306 where
  buf : List Nat
  flag : Bool
  dc : Bool
  cs : Bool
  res : Bool
  mutex : Bool
  log : List Transfer
  deriving DecidableEq, Repr

namespace mono_lcd_lib_ssd1306

/-- Blocking take with `portMAX_DELAY`: succeeds on a free mutex, never returns
(`none`) on a held one. -/
def USER_OS_TAKE_MUTEX (st : mono_lcd_lib_ssd1306) : Option mono_lcd_lib_ssd1306 :=
  if st.mutex then none else some { st with mutex := true }

/-- Release of the mutex. -/
def USER_OS_GIVE_MUTEX (st : mono_lcd_lib_ssd1306) : mono_lcd_lib_ssd1306 :=
  { st with mutex := false }

/-- Delay primitive; time is not part of the state. -/
def USER_OS_DELAY_MS (st : mono_lcd_lib_ssd1306) (_ms : Nat) : mono_lcd_lib_ssd1306 := st

/-- Burst write `cfg->p_spi->tx(data, len, timeout)`. -/
def tx (bus : Bus) (st : mono_lcd_lib_ssd1306) (data : List Nat) (len timeout : Nat) :
    mono_lcd_lib_ssd1306 × BaseResult :=
  ({ st with log := st.log ++ [Transfer.tx st.dc st.cs (data.take len) timeout] },
    bus st.log.length)

/-- Source function `mono_lcd_lib_ssd1306::set_pos_to_lcd` (lines 55-64) for `uint8_t` arguments. -/
def set_pos_to_lcd (bus : Bus) (st : mono_lcd_lib_ssd1306) (x y : Nat) :
    mono_lcd_lib_ssd1306 × BaseResult :=
  let st := { st with dc := false }
  let b2 := (0xb0 + y) % 256
  let b1 := (((x &&& 0xf0) >>> 4) ||| 0x10) % 256
  let b0 := ((x &&& 0x0f) ||| 0x01) % 256
  tx bus st [b0, b1, b2] 3 100

/-- Source function `mono_lcd_lib_ssd1306::update` (lines 67-86). -/
def update (bus : Bus) (st : mono_lcd_lib_ssd1306) :
    Option (mono_lcd_lib_ssd1306 × BaseResult) :=
  if st.flag = false then some (st, BaseResult.ERROR_INIT) else
  match USER_OS_TAKE_MUTEX st with
  | none => none
  | some st =>
    let st := { st with cs := false }
    let p := set_pos_to_lcd bus st 0 0
    let p :=
      if p.2 = BaseResult.OK then
        let st := { p.1 with dc := true }
        let q := tx bus st st.buf 1024 100
        ({ q.1 with cs := true }, q.2)
      else p
    some (USER_OS_GIVE_MUTEX p.1, p.2)

/-- First part of `mono_lcd_lib_ssd1306::reset` (lines 22-36): line set-up, reset pulse
and the init-table burst under the mutex, up to and including the release of the
mutex. -/
def resetBurst (bus : Bus) (st : mono_lcd_lib_ssd1306) :
    Option (mono_lcd_lib_ssd1306 × BaseResult) :=
  let st := { st with dc := false }
  let st := { st with cs := true }
  let st := { st with res := false }
  let st := USER_OS_DELAY_MS st 10
  let st := { st with res := true }
  let st := USER_OS_DELAY_MS st 10
  match USER_OS_TAKE_MUTEX st with
  | none => none
  | some st =>
    let st := { st with cs := false }
    let p := tx bus st ssd1306_init_command ssd1306_init_command.length 100
    let st := { p.1 with cs := false }
    some (USER_OS_GIVE_MUTEX st, p.2)

/-- Source function `mono_lcd_lib_ssd1306::reset` (lines 21-41). -/
def reset (bus : Bus) (st : mono_lcd_lib_ssd1306) :
    Option (mono_lcd_lib_ssd1306 × BaseResult) :=
  match resetBurst bus st with
  | none => none
  | some p =>
    if check_result p.2 then some p else
    let st := { p.1 with flag := true }
    update bus st

/-- Source function `mono_lcd_lib_ssd1306::buf_clear` (lines 89-91): `memset(buf, 0, 1024)`. -/
def buf_clear (st : mono_lcd_lib_ssd1306) : mono_lcd_lib_ssd1306 :=
  { st with buf := List.replicate 1024 0 ++ st.buf.drop 1024 }

end mono_lcd_lib_ssd1306

/-! Section: Reference definitions used to state the properties -/

/-- Reference semantics of "first failure aborts the remainder": the transfers of `ts`
are issued in order, the one at position `i` receiving `bus (n + i)`; the first one that
does not succeed is the last one issued and its result is returned.  The third argument
is the result held before the first transfer. -/
def issueUntilFailure (bus : Bus) : Nat → List Transfer → BaseResult →
    List Transfer × BaseResult
  | _, [], r => ([], r)
  | n, t :: ts, _ =>
    if bus n = BaseResult.OK then
      (t :: (issueUntilFailure bus (n + 1) ts BaseResult.OK).1,
        (issueUntilFailure bus (n + 1) ts BaseResult.OK).2)
    else ([t], bus n)

/-- A single-byte command transfer as `comOut` puts it on the bus: command mode
(`a0` low), device selected (`cs` low), timeout 100. -/
def commandTransfer (command : Nat) : Transfer :=
  Transfer.tx false false [command % 256] 100

/-- The three transfers of page `p` in `ST7565::update`: page select, column upper,
and the data burst (data mode, device selected) holding the encoded row. -/
def pageTransfers (cmd : ST7565Cmd) (mode : ST7565_MODE) (userBuf : List Nat) (p : Nat) :
    List Transfer :=
  [commandTransfer (cmd.CMD_SET_PAGE ||| p),
   commandTransfer cmd.CMD_SET_COLUMN_UPPER,
   Transfer.tx true false (encodePage mode userBuf p) 100]

/-- The transfers of the listed pages, in order. -/
def pagesTransfers (cmd : ST7565Cmd) (mode : ST7565_MODE) (userBuf : List Nat) :
    List Nat → List Transfer
  | [] => []
  | p :: rest => pageTransfers cmd mode userBuf p ++ pagesTransfers cmd mode userBuf rest

/-- The complete transfer sequence of one `ST7565::update`: pages `0, 1, ..., 7`. -/
def updateTransfers (cmd : ST7565Cmd) (mode : ST7565_MODE) (userBuf : List Nat) :
    List Transfer :=
  pagesTransfers cmd mode userBuf (List.range 8)

/-- State after a complete iteration of the `page_l` loop for page `p`, with the
select line at level `cs`. -/
def ST7565.afterPage (cmd : ST7565Cmd) (st : ST7565) (p : Nat) (cs : Bool) : ST7565 :=
  { st with
      a0 := true
      cs := cs
      lcdImage := encodePage st.mode st.userBuf p
      log := st.log ++ pageTransfers cmd st.mode st.userBuf p }

/-- The nine command bytes of `ST7565::reset`, in source order. -/
def resetCommands (cmd : ST7565Cmd) : List Nat :=
  [cmd.CMD_SET_BIAS_9, cmd.CMD_SET_ADC_REVERSE, cmd.CMD_SET_COM_NORMAL,
   cmd.CMD_SET_DISP_START_LINE, cmd.CMD_SET_POWER_CONTROL ||| 0x4,
   cmd.CMD_SET_POWER_CONTROL ||| 0x6, cmd.CMD_SET_POWER_CONTROL ||| 0x7,
   cmd.CMD_SET_RESISTOR_RATIO ||| 0x6, cmd.CMD_SET_ALLPTS_NORMAL]

/-- The payloads of the data-mode burst writes in a list of transfers. -/
def dataBursts : List Transfer → List (List Nat)
  | [] => []
  | Transfer.tx true _ bytes _ :: rest => bytes :: dataBursts rest
  | _ :: rest => dataBursts rest

/-- Reversal of the order of the low eight bits of a byte. -/
def bitReverse8 (b : Nat) : Nat :=
  (((b >>> 0) &&& 1) <<< 7) ||| (((b >>> 1) &&& 1) <<< 6) |||
  (((b >>> 2) &&& 1) <<< 5) ||| (((b >>> 3) &&& 1) <<< 4) |||
  (((b >>> 4) &&& 1) <<< 3) ||| (((b >>> 5) &&& 1) <<< 2) |||
  (((b >>> 6) &&& 1) <<< 1) ||| (((b >>> 7) &&& 1) <<< 0)

/-- Pixel `(x, y)` of the user buffer: bit `x % 8` of byte `y * 16 + x / 8`. -/
def bufPixel (userBuf : List Nat) (x y : Nat) : Bool :=
  (userBuf.getD (y * 16 + x / 8) 0).testBit (x % 8)

/-- Pixel `(x, y)` of the encoded output: bit `y % 8` of byte `x` of page `y / 8`. -/
def lcdPixel (mode : ST7565_MODE) (userBuf : List Nat) (x y : Nat) : Bool :=
  ((encodePage mode userBuf (y / 8)).getD x 0).testBit (y % 8)

/-- The address burst of `set_pos_to_lcd(0, 0)` as the code puts it on the bus with the
device selected. -/
def addressBurst00 : Transfer :=
  Transfer.tx false false [0x01, 0x10, 0xb0] 100

/-- A buffer of 1024 zero bytes with the single pixel `(x = 5, y = 3)` set. -/
def singlePixelBuf : List Nat :=
  (List.replicate 1024 0).set (3 * 16 + 0) (1 <<< 5)

/-- An `ST7565` object before any operation: lines high, mutex free, empty log. -/
def ST7565.fresh (mode : ST7565_MODE) (userBuf : List Nat) : ST7565 :=
  { mode := mode, userBuf := userBuf, lcdImage := List.replicate 128 0,
    a0 := true, cs := true, res := true, m := false, log := [] }

/-- A `mono_lcd_lib_ssd1306` object before any operation: not ready, lines high, mutex
free, empty log. -/
def mono_lcd_lib_ssd1306.unready (buf : List Nat) : mono_lcd_lib_ssd1306 :=
  { buf := buf, flag := false, dc := true, cs := true, res := true, mutex := false,
    log := [] }

/-- Sample command constants (the usual ST7565 values) for concrete evaluations. -/
def sampleCmd : ST7565Cmd :=
  { CMD_SET_VOLUME_FIRST := 0x81, CMD_SET_VOLUME_SECOND := 0x00, CMD_SET_BIAS_9 := 0xA2,
    CMD_SET_ADC_REVERSE := 0xA1, CMD_SET_COM_NORMAL := 0xC0,
    CMD_SET_DISP_START_LINE := 0x40, CMD_SET_POWER_CONTROL := 0x28,
    CMD_SET_RESISTOR_RATIO := 0x20, CMD_SET_ALLPTS_NORMAL := 0xA4,
    CMD_DISPLAY_ON := 0xAF, CMD_DISPLAY_OFF := 0xAE, CMD_SET_PAGE := 0xB0,
    CMD_SET_COLUMN_UPPER := 0x10 }

/-- A bus on which every transfer succeeds. -/
def busOk : Bus := fun _ => BaseResult.OK

/-- A bus on which transfer number `k` (counted from 0) fails with code 1 and every
other transfer succeeds. -/
def busFailAt (k : Nat) : Bus := fun n => if n = k then BaseResult.BUS_ERROR 1 else BaseResult.OK

/-! Section: Encoder lemmas -/

theorem orAssign_length (img : List Nat) (i v : Nat) :
    (orAssign img i v).length = img.length := by
  simp [orAssign]

theorem orAssign_getD (img : List Nat) (i v j : Nat) (hi : i < img.length) :
    (orAssign img i v).getD j 0 =
      if j = i then (img.getD i 0 ||| v) % 256 else img.getD j 0 := by
  simp only [orAssign, List.getD_eq_getElem?_getD, List.getElem?_set]
  by_cases h : i = j
  · subst h; simp [hi]
  · have h2 : ¬ j = i := fun e => h e.symm
    simp [h, h2]

theorem columnStep_length (mode : ST7565_MODE) (userBuf : List Nat) (us s : Nat)
    (img : List Nat) (c : Nat) :
    (columnStep mode userBuf us s img c).length = img.length := by
  cases mode <;> simp [columnStep, orAssign_length]

theorem columnStep_getD (mode : ST7565_MODE) (userBuf : List Nat) (us s : Nat)
    (img : List Nat) (c d : Nat) (hlen : img.length = 128) (hc : c < 128) :
    (columnStep mode userBuf us s img c).getD d 0 =
      if d = dstColumn mode c then (img.getD d 0 ||| shiftedBit userBuf us s c) % 256
      else img.getD d 0 := by
  cases mode <;> simp only [columnStep, dstColumn] <;> rw [orAssign_getD _ _ _ _ (by omega)] <;>
    split <;> simp_all

theorem columnLoop_length (mode : ST7565_MODE) (userBuf : List Nat) (us s : Nat) (n : Nat)
    (img : List Nat) :
    ((List.range n).foldl (columnStep mode userBuf us s) img).length = img.length := by
  induction n with
  | zero => simp
  | succ k ih => rw [List.range_succ, List.foldl_append]; simp [columnStep_length, ih]

theorem dstColumn_lt (mode : ST7565_MODE) (c : Nat) (hc : c < 128) : dstColumn mode c < 128 := by
  cases mode <;> simp [dstColumn] <;> omega

theorem dstColumn_dstColumn (mode : ST7565_MODE) (c : Nat) (hc : c < 128) :
    dstColumn mode (dstColumn mode c) = c := by
  cases mode <;> simp [dstColumn] <;> omega

/-- After the first `n` iterations of the `column_l` loop, output byte `d` has received
the contribution of its source column if and only if that column is below `n`. -/
theorem columnLoop_getD (mode : ST7565_MODE) (userBuf : List Nat) (us s : Nat) (n : Nat)
    (img : List Nat) (hlen : img.length = 128) (hn : n ≤ 128) (d : Nat) (hd : d < 128) :
    ((List.range n).foldl (columnStep mode userBuf us s) img).getD d 0 =
      if dstColumn mode d < n then
        (img.getD d 0 ||| shiftedBit userBuf us s (dstColumn mode d)) % 256
      else img.getD d 0 := by
  induction n with
  | zero => simp
  | succ k ih =>
    rw [List.range_succ, List.foldl_append]
    simp only [List.foldl_cons, List.foldl_nil]
    rw [columnStep_getD _ _ _ _ _ _ _ (by rw [columnLoop_length]; exact hlen) (by omega),
      ih (by omega)]
    have hinv := dstColumn_dstColumn mode d hd
    by_cases h1 : d = dstColumn mode k
    · have hk : dstColumn mode d = k := by rw [h1]; exact dstColumn_dstColumn mode k (by omega)
      simp [h1, hk]
      rw [← h1, hk]
      simp
    · have hk : dstColumn mode d ≠ k := by
        intro e; apply h1; rw [← e, hinv]
      have : (dstColumn mode d < k + 1) ↔ (dstColumn mode d < k) := by omega
      simp [h1, this]

theorem getD_replicate_zero (n d : Nat) : (List.replicate n 0).getD d 0 = 0 := by
  rw [List.getD_eq_getElem?_getD, List.getElem?_replicate]
  split <;> rfl

theorem testBit_one_eq (i : Nat) : Nat.testBit 1 i = decide (i = 0) := by
  cases i with
  | zero => simp
  | succ k => simp [Nat.testBit_succ]

theorem shiftedBit_testBit (userBuf : List Nat) (us s c j : Nat) :
    (shiftedBit userBuf us s c).testBit j =
      (decide (j = s) && (userBuf.getD (us + c / 8) 0).testBit (c % 8)) := by
  simp only [shiftedBit, Nat.testBit_shiftLeft, Nat.testBit_and, Nat.testBit_shiftRight,
    testBit_one_eq]
  by_cases h : j = s
  · subst h; simp
  · by_cases h2 : j ≥ s
    · have : ¬ (j - s = 0) := by omega
      simp [h, this]
    · simp [h, h2]

theorem stringStep_length (mode : ST7565_MODE) (userBuf : List Nat) (p : Nat)
    (img : List Nat) (s : Nat) :
    (stringStep mode userBuf p img s).length = img.length := by
  simp [stringStep, columnLoop_length]

theorem stringLoop_length (mode : ST7565_MODE) (userBuf : List Nat) (p m : Nat)
    (img : List Nat) :
    ((List.range m).foldl (stringStep mode userBuf p) img).length = img.length := by
  induction m with
  | zero => simp
  | succ k ih => rw [List.range_succ, List.foldl_append]; simp [stringStep_length, ih]

/-- After the first `m` iterations of the `string_l` loop on a zeroed row, bit `j` of
output byte `d` is the source bit of row `j` when `j < m`, and is clear otherwise. -/
theorem stringLoop_testBit (mode : ST7565_MODE) (userBuf : List Nat) (p m : Nat) (hm : m ≤ 8)
    (d : Nat) (hd : d < 128) (j : Nat) :
    (((List.range m).foldl (stringStep mode userBuf p) (List.replicate 128 0)).getD d 0).testBit j =
      (decide (j < m) &&
        (userBuf.getD (us_p_string mode p j + dstColumn mode d / 8) 0).testBit
          (dstColumn mode d % 8)) := by
  induction m with
  | zero =>
    rw [List.range_zero, List.foldl_nil, getD_replicate_zero]
    simp
  | succ k ih =>
    rw [List.range_succ, List.foldl_append]
    simp only [List.foldl_cons, List.foldl_nil]
    rw [stringStep, columnLoop_getD _ _ _ _ 128 _ (by rw [stringLoop_length]; simp)
      (Nat.le_refl _) d hd]
    rw [if_pos (dstColumn_lt mode d hd)]
    have h256 : (256 : Nat) = 2 ^ 8 := by norm_num
    rw [h256, Nat.testBit_mod_two_pow, Nat.testBit_or, ih (by omega), shiftedBit_testBit]
    by_cases h1 : j = k
    · subst h1
      have : j < 8 := by omega
      simp [this]
    · by_cases h2 : j < k
      · have h3 : j < k + 1 := by omega
        have h4 : j < 8 := by omega
        simp [h1, h2, h3, h4]
      · have h3 : ¬ j < k + 1 := by omega
        simp [h1, h2, h3]

theorem encodePage_length (mode : ST7565_MODE) (userBuf : List Nat) (p : Nat) :
    (encodePage mode userBuf p).length = 128 := by
  unfold encodePage
  simp [stringLoop_length]

/-- Bit-level description of the encoded row: bit `j` of output byte `d`. -/
theorem encodePage_testBit (mode : ST7565_MODE) (userBuf : List Nat) (p d j : Nat)
    (hd : d < 128) :
    ((encodePage mode userBuf p).getD d 0).testBit j =
      (decide (j < 8) &&
        (userBuf.getD (us_p_string mode p j + dstColumn mode d / 8) 0).testBit
          (dstColumn mode d % 8)) := by
  unfold encodePage
  exact stringLoop_testBit mode userBuf p 8 (Nat.le_refl _) d hd j

theorem encodePage_lt (mode : ST7565_MODE) (userBuf : List Nat) (p d : Nat) :
    (encodePage mode userBuf p).getD d 0 < 256 := by
  by_cases hd : d < 128
  · have h256 : (256 : Nat) = 2 ^ 8 := by norm_num
    rw [h256]
    apply Nat.lt_pow_two_of_testBit
    intro i hi
    rw [encodePage_testBit _ _ _ _ _ hd]
    have : ¬ i < 8 := by omega
    simp [this]
  · rw [List.getD_eq_getElem?_getD, List.getElem?_eq_none (by rw [encodePage_length]; omega)]
    simp

/-- The source byte index read for page `p`, row `s`, column `c` lies inside the buffer. -/
theorem us_p_string_lt (mode : ST7565_MODE) (p s c : Nat) (hp : p < 8) (hs : s < 8)
    (hc : c < 128) : us_p_string mode p s + c / 8 < 1024 := by
  unfold us_p_string
  split <;> omega

/-! Section: Further encoder lemmas: byte equalities -/

theorem list_eq_of_getD (l₁ l₂ : List Nat) (hlen : l₁.length = l₂.length)
    (h : ∀ d, d < l₁.length → l₁.getD d 0 = l₂.getD d 0) : l₁ = l₂ := by
  apply List.ext_getElem hlen
  intro n h1 h2
  rw [← List.getD_eq_getElem l₁ 0 h1, ← List.getD_eq_getElem l₂ 0 h2]
  exact h n h1

theorem bitReverse8_testBit (b j : Nat) :
    (bitReverse8 b).testBit j = (decide (j < 8) && b.testBit (7 - j)) := by
  simp only [bitReverse8, Nat.testBit_or, Nat.testBit_shiftLeft, Nat.testBit_and,
    Nat.testBit_shiftRight, testBit_one_eq]
  by_cases h : j < 8
  · interval_cases j <;> simp
  · have h0 : ¬ (j - 7 = 0) := by omega
    have h1 : ¬ (j - 6 = 0) := by omega
    have h2 : ¬ (j - 5 = 0) := by omega
    have h3 : ¬ (j - 4 = 0) := by omega
    have h4 : ¬ (j - 3 = 0) := by omega
    have h5 : ¬ (j - 2 = 0) := by omega
    have h6 : ¬ (j - 1 = 0) := by omega
    have h7 : ¬ (j = 0) := by omega
    simp [h, h0, h1, h2, h3, h4, h5, h6, h7]

theorem getD_replicate_255 (i : Nat) (hi : i < 1024) :
    (List.replicate 1024 255).getD i 0 = 255 := by
  rw [List.getD_eq_getElem?_getD, List.getElem?_replicate, if_pos hi]
  rfl

theorem testBit_255 (j : Nat) : Nat.testBit 255 j = decide (j < 8) := by
  have h : (255 : Nat) = 2 ^ 8 - 1 := by norm_num
  rw [h, Nat.testBit_two_pow_sub_one]

/-- With every buffer bit set, every page encodes to 128 bytes `0xFF`. -/
theorem encodePage_allOnes (mode : ST7565_MODE) (p : Nat) (hp : p < 8) :
    encodePage mode (List.replicate 1024 255) p = List.replicate 128 255 := by
  apply list_eq_of_getD
  · rw [encodePage_length, List.length_replicate]
  · intro d hd
    rw [encodePage_length] at hd
    have hr : (List.replicate 128 255).getD d 0 = 255 := by
      rw [List.getD_eq_getElem?_getD, List.getElem?_replicate, if_pos hd]
      rfl
    rw [hr]
    apply Nat.eq_of_testBit_eq
    intro j
    rw [encodePage_testBit _ _ _ _ _ hd, testBit_255]
    by_cases hj : j < 8
    · rw [getD_replicate_255 _ (us_p_string_lt mode p j _ hp hj (dstColumn_lt mode d hd)),
        testBit_255]
      have : dstColumn mode d % 8 < 8 := Nat.mod_lt _ (by norm_num)
      simp [hj, this]
    · simp only [hj, decide_False, Bool.false_and]

theorem singlePixelBuf_length : singlePixelBuf.length = 1024 := by
  simp only [singlePixelBuf, List.length_set, List.length_replicate]

theorem singlePixelBuf_getD (i : Nat) :
    singlePixelBuf.getD i 0 = if i = 48 then 32 else 0 := by
  unfold singlePixelBuf
  rw [List.getD_eq_getElem?_getD, List.getElem?_set, List.getElem?_replicate]
  by_cases h : i = 48
  · subst h
    rw [List.length_replicate]
    rfl
  · have h2 : ¬ (3 * 16 + 0 = i) := by omega
    rw [if_neg h2, if_neg h]
    split <;> rfl

theorem testBit_32 (j : Nat) : Nat.testBit 32 j = decide (j = 5) := by
  have h : (32 : Nat) = 2 ^ 5 := by norm_num
  rw [h, Nat.testBit_two_pow]
  by_cases h5 : j = 5
  · subst h5; simp
  · have : ¬ (5 = j) := fun e => h5 e.symm
    simp [h5, this]

theorem testBit_8 (j : Nat) : Nat.testBit 8 j = decide (j = 3) := by
  have h : (8 : Nat) = 2 ^ 3 := by norm_num
  rw [h, Nat.testBit_two_pow]
  by_cases h5 : j = 3
  · subst h5; simp
  · have : ¬ (3 = j) := fun e => h5 e.symm
    simp [h5, this]

/-- The single pixel `(5, 3)` in STANDARD mode, page 0: output byte 5 is `0x08`, every
other output byte is zero. -/
theorem encodePage_singlePixel (d : Nat) :
    (encodePage STANDARD singlePixelBuf 0).getD d 0 = if d = 5 then 8 else 0 := by
  by_cases hd : d < 128
  · apply Nat.eq_of_testBit_eq
    intro j
    rw [encodePage_testBit _ _ _ _ _ hd, singlePixelBuf_getD]
    simp only [us_p_string, dstColumn, Nat.zero_mul, Nat.zero_add]
    by_cases hj : j < 8
    · by_cases h5 : d = 5
      · subst h5
        by_cases h3 : j = 3
        · subst h3; simp [testBit_32, testBit_8]
        · have : ¬ (j * 16 = 48) := by omega
          simp [testBit_8, h3, this]
      · by_cases hi : j * 16 + d / 8 = 48
        · have : ¬ (d % 8 = 5) := by omega
          simp [hi, h5, testBit_32, this]
        · simp [hi, h5]
    · have : (if d = 5 then 8 else 0 : Nat) < 2 ^ 8 := by split <;> norm_num
      have h8 : (if d = 5 then 8 else 0 : Nat).testBit j = false :=
        Nat.testBit_lt_two_pow (Nat.lt_of_lt_of_le this
          (Nat.pow_le_pow_right (by norm_num) (by omega)))
      simp [hj, h8]
  · rw [List.getD_eq_getElem?_getD, List.getElem?_eq_none (by rw [encodePage_length]; omega)]
    have : ¬ d = 5 := by omega
    simp [this]

theorem testBit_STANDARD (userBuf : List Nat) (p d j : Nat) (hd : d < 128) :
    ((encodePage STANDARD userBuf p).getD d 0).testBit j =
      (decide (j < 8) && (userBuf.getD (p * 128 + j * 16 + d / 8) 0).testBit (d % 8)) := by
  simpa [us_p_string, dstColumn] using encodePage_testBit STANDARD userBuf p d j hd

theorem testBit_IVERT_X (userBuf : List Nat) (p d j : Nat) (hd : d < 128) :
    ((encodePage IVERT_X userBuf p).getD d 0).testBit j =
      (decide (j < 8) &&
        (userBuf.getD (p * 128 + j * 16 + (127 - d) / 8) 0).testBit ((127 - d) % 8)) := by
  simpa [us_p_string, dstColumn] using encodePage_testBit IVERT_X userBuf p d j hd

theorem testBit_IVERT_Y (userBuf : List Nat) (p d j : Nat) (hd : d < 128) :
    ((encodePage IVERT_Y userBuf p).getD d 0).testBit j =
      (decide (j < 8) &&
        (userBuf.getD ((7 - p) * 128 + (7 - j) * 16 + d / 8) 0).testBit (d % 8)) := by
  simpa [us_p_string, dstColumn] using encodePage_testBit IVERT_Y userBuf p d j hd

theorem testBit_IVERT_X_AMD_Y (userBuf : List Nat) (p d j : Nat) (hd : d < 128) :
    ((encodePage IVERT_X_AMD_Y userBuf p).getD d 0).testBit j =
      (decide (j < 8) &&
        (userBuf.getD ((7 - p) * 128 + (7 - j) * 16 + (127 - d) / 8) 0).testBit
          ((127 - d) % 8)) := by
  simpa [us_p_string, dstColumn] using encodePage_testBit IVERT_X_AMD_Y userBuf p d j hd

/-- Two bytes agree when their low eight bits agree and both bit descriptions vanish
from bit 8 on. -/
theorem byte_eq_of_bits (a b : Nat) (f g : Nat → Bool)
    (ha : ∀ j, a.testBit j = (decide (j < 8) && f j))
    (hb : ∀ j, b.testBit j = (decide (j < 8) && g j))
    (h : ∀ j, j < 8 → f j = g j) : a = b := by
  apply Nat.eq_of_testBit_eq
  intro j
  rw [ha, hb]
  by_cases hj : j < 8
  · rw [h j hj]
  · simp [hj]

/-! Section: Lemmas on first-failure sequences -/

theorem issueUntilFailure_all_ok (bus : Bus) (ts : List Transfer) (n : Nat) (r : BaseResult)
    (h : ∀ i, i < ts.length → bus (n + i) = BaseResult.OK) :
    issueUntilFailure bus n ts r = (ts, if ts = [] then r else BaseResult.OK) := by
  induction ts generalizing n r with
  | nil => simp [issueUntilFailure]
  | cons t rest ih =>
    have h0 : bus n = BaseResult.OK := by simpa using h 0 (by simp)
    have hrest : ∀ i, i < rest.length → bus (n + 1 + i) = BaseResult.OK := by
      intro i hi
      have := h (i + 1) (by simp; omega)
      rw [← this]; congr 1; omega
    simp only [issueUntilFailure, h0, if_true, ih (n + 1) BaseResult.OK hrest]
    cases rest <;> simp

theorem issueUntilFailure_first_fail (bus : Bus) (ts : List Transfer) (n k : Nat)
    (r : BaseResult) (hk : k < ts.length)
    (hok : ∀ i, i < k → bus (n + i) = BaseResult.OK) (hfail : bus (n + k) ≠ BaseResult.OK) :
    issueUntilFailure bus n ts r = (ts.take (k + 1), bus (n + k)) := by
  induction ts generalizing n k r with
  | nil => simp at hk
  | cons t rest ih =>
    cases k with
    | zero =>
      have h0 : ¬ bus n = BaseResult.OK := by simpa using hfail
      simp [issueUntilFailure, h0]
    | succ j =>
      have h0 : bus n = BaseResult.OK := by simpa using hok 0 (by omega)
      have hj : j < rest.length := by simpa using hk
      have hok2 : ∀ i, i < j → bus (n + 1 + i) = BaseResult.OK := by
        intro i hi
        have := hok (i + 1) (by omega)
        rw [← this]; congr 1; omega
      have hfail2 : bus (n + 1 + j) ≠ BaseResult.OK := by
        have e : n + 1 + j = n + (j + 1) := by omega
        rw [e]; exact hfail
      have e : n + 1 + j = n + (j + 1) := by omega
      simp only [issueUntilFailure, h0, if_true, ih (n + 1) j BaseResult.OK hj hok2 hfail2,
        List.take_succ_cons, e]

/-! Section: Lemmas on the ST7565 driver -/

namespace ST7565

theorem comOut_eq (bus : Bus) (st : ST7565) (c : Nat) :
    comOut bus st c =
      ({ st with a0 := false, cs := true, log := st.log ++ [commandTransfer c] },
        bus st.log.length) := rfl

theorem tx_eq (bus : Bus) (st : ST7565) (data : List Nat) (len timeout : Nat) :
    tx bus st data len timeout =
      ({ st with log := st.log ++ [Transfer.tx st.a0 st.cs (data.take len) timeout] },
        bus st.log.length) := rfl

theorem take_encodePage (mode : ST7565_MODE) (userBuf : List Nat) (p : Nat) :
    (encodePage mode userBuf p).take 128 = encodePage mode userBuf p :=
  List.take_of_length_le (Nat.le_of_eq (encodePage_length mode userBuf p))

/-- One iteration of the `page_l` loop, by the results of its three transfers. -/
theorem updateLoop_cons (bus : Bus) (cmd : ST7565Cmd) (p : Nat) (rest : List Nat)
    (st : ST7565) (r0 : BaseResult) :
    updateLoop bus cmd (p :: rest) (st, r0) =
      if bus st.log.length ≠ BaseResult.OK then
        ({ st with
            a0 := false
            cs := true
            log := st.log ++ [commandTransfer (cmd.CMD_SET_PAGE ||| p)] },
          bus st.log.length)
      else if bus (st.log.length + 1) ≠ BaseResult.OK then
        ({ st with
            a0 := false
            cs := true
            log := st.log ++ [commandTransfer (cmd.CMD_SET_PAGE ||| p),
              commandTransfer cmd.CMD_SET_COLUMN_UPPER] },
          bus (st.log.length + 1))
      else if bus (st.log.length + 2) ≠ BaseResult.OK then
        (afterPage cmd st p false, bus (st.log.length + 2))
      else
        updateLoop bus cmd rest (afterPage cmd st p true, bus (st.log.length + 2)) := by
  rw [updateLoop]
  simp only [comOut_eq, tx_eq, checkResultAndBreak, take_encodePage, afterPage, pageTransfers]
  simp

/-- The `page_l` loop issues the page transfers with first-failure-aborts semantics and
leaves mode, user buffer and mutex untouched. -/
theorem updateLoop_spec (bus : Bus) (cmd : ST7565Cmd) (pages : List Nat) (st : ST7565)
    (r0 : BaseResult) :
    (updateLoop bus cmd pages (st, r0)).1.log =
        st.log ++ (issueUntilFailure bus st.log.length
          (pagesTransfers cmd st.mode st.userBuf pages) r0).1 ∧
    (updateLoop bus cmd pages (st, r0)).2 =
        (issueUntilFailure bus st.log.length
          (pagesTransfers cmd st.mode st.userBuf pages) r0).2 ∧
    (updateLoop bus cmd pages (st, r0)).1.m = st.m ∧
    (updateLoop bus cmd pages (st, r0)).1.mode = st.mode ∧
    (updateLoop bus cmd pages (st, r0)).1.userBuf = st.userBuf := by
  induction pages generalizing st r0 with
  | nil => simp [updateLoop, pagesTransfers, issueUntilFailure]
  | cons p rest ih =>
    rw [updateLoop_cons]
    simp only [pagesTransfers, pageTransfers, List.cons_append, List.nil_append,
      issueUntilFailure]
    have e : st.log.length + 1 + 1 = st.log.length + 2 := rfl
    rw [e]
    by_cases h0 : bus st.log.length = BaseResult.OK
    · by_cases h1 : bus (st.log.length + 1) = BaseResult.OK
      · by_cases h2 : bus (st.log.length + 2) = BaseResult.OK
        · simp only [h0, h1, h2, ne_eq, not_true_eq_false, if_false, if_true]
          obtain ⟨a, b, c, d, e⟩ := ih (afterPage cmd st p true) BaseResult.OK
          have hl : (afterPage cmd st p true).log.length = st.log.length + 2 + 1 := by
            simp [afterPage, pageTransfers]
          have hm : (afterPage cmd st p true).mode = st.mode := rfl
          have hu : (afterPage cmd st p true).userBuf = st.userBuf := rfl
          have hmm : (afterPage cmd st p true).m = st.m := rfl
          have hlog : (afterPage cmd st p true).log =
              st.log ++ pageTransfers cmd st.mode st.userBuf p := rfl
          rw [hl, hm, hu] at a b
          refine ⟨?_, ?_, ?_, ?_, ?_⟩
          · rw [a, hlog]; simp [pageTransfers]
          · rw [b]; rfl
          · rw [c, hmm]
          · rw [d, hm]
          · rw [e, hu]
        · simp [h0, h1, h2, afterPage, pageTransfers]
      · simp [h0, h1]
    · simp [h0]

/-- Source function `ST7565::reset` between take and give: the nine commands are issued with
first-failure-aborts semantics; the mutex is not touched. -/
theorem resetBody_spec (bus : Bus) (cmd : ST7565Cmd) (st : ST7565) :
    (resetBody bus cmd st).1.log =
        st.log ++ (issueUntilFailure bus st.log.length
          ((resetCommands cmd).map commandTransfer) BaseResult.OK).1 ∧
    (resetBody bus cmd st).2 =
        (issueUntilFailure bus st.log.length
          ((resetCommands cmd).map commandTransfer) BaseResult.OK).2 ∧
    (resetBody bus cmd st).1.m = st.m := by
  simp only [resetBody, comOut_eq, checkResultAndBreak, USER_OS_DELAY_MS, resetCommands,
    List.map, issueUntilFailure, List.length_append, List.length_cons, List.length_nil,
    Nat.zero_add]
  by_cases h0 : bus (st.log.length) = BaseResult.OK
  swap
  · simp [h0]
  by_cases h1 : bus (st.log.length + 1) = BaseResult.OK
  swap
  · simp [h0, h1]
  by_cases h2 : bus (st.log.length + 1 + 1) = BaseResult.OK
  swap
  · simp [h0, h1, h2]
  by_cases h3 : bus (st.log.length + 1 + 1 + 1) = BaseResult.OK
  swap
  · simp [h0, h1, h2, h3]
  by_cases h4 : bus (st.log.length + 1 + 1 + 1 + 1) = BaseResult.OK
  swap
  · simp [h0, h1, h2, h3, h4]
  by_cases h5 : bus (st.log.length + 1 + 1 + 1 + 1 + 1) = BaseResult.OK
  swap
  · simp [h0, h1, h2, h3, h4, h5]
  by_cases h6 : bus (st.log.length + 1 + 1 + 1 + 1 + 1 + 1) = BaseResult.OK
  swap
  · simp [h0, h1, h2, h3, h4, h5, h6]
  by_cases h7 : bus (st.log.length + 1 + 1 + 1 + 1 + 1 + 1 + 1) = BaseResult.OK
  swap
  · simp [h0, h1, h2, h3, h4, h5, h6, h7]
  by_cases h8 : bus (st.log.length + 1 + 1 + 1 + 1 + 1 + 1 + 1 + 1) = BaseResult.OK
  swap
  · simp [h0, h1, h2, h3, h4, h5, h6, h7, h8]
  simp [h0, h1, h2, h3, h4, h5, h6, h7, h8]

theorem take_free (st : ST7565) (hm : st.m = false) :
    USER_OS_TAKE_MUTEX st = some { st with m := true } := by
  simp [USER_OS_TAKE_MUTEX, hm]

/-- Source function `ST7565::update` on a free mutex: the transfers of the eight pages are issued with
first-failure-aborts semantics, the mutex is free again, mode and buffer are unchanged. -/
theorem update_spec (bus : Bus) (cmd : ST7565Cmd) (st : ST7565) (hm : st.m = false) :
    ∃ st', update bus cmd st = some (st',
        (issueUntilFailure bus st.log.length
          (updateTransfers cmd st.mode st.userBuf) BaseResult.OK).2) ∧
      st'.log = st.log ++ (issueUntilFailure bus st.log.length
          (updateTransfers cmd st.mode st.userBuf) BaseResult.OK).1 ∧
      st'.m = false ∧ st'.mode = st.mode ∧ st'.userBuf = st.userBuf := by
  obtain ⟨a, b, _, d, e⟩ :=
    updateLoop_spec bus cmd (List.range 8) { st with m := true } BaseResult.OK
  refine ⟨USER_OS_GIVE_MUTEX
    (updateLoop bus cmd (List.range 8) ({ st with m := true }, BaseResult.OK)).1, ?_, ?_, rfl,
    ?_, ?_⟩
  · unfold update
    rw [take_free st hm]
    simp only []
    rw [b]
    rfl
  · exact a
  · exact d
  · exact e

/-- Source function `ST7565::reset` on a free mutex. -/
theorem reset_spec (bus : Bus) (cmd : ST7565Cmd) (st : ST7565) (hm : st.m = false) :
    ∃ st', reset bus cmd st = some (st',
        (issueUntilFailure bus st.log.length
          ((resetCommands cmd).map commandTransfer) BaseResult.OK).2) ∧
      st'.log = st.log ++ (issueUntilFailure bus st.log.length
          ((resetCommands cmd).map commandTransfer) BaseResult.OK).1 ∧
      st'.m = false := by
  obtain ⟨a, b, _⟩ := resetBody_spec bus cmd { st with m := true }
  refine ⟨USER_OS_GIVE_MUTEX (resetBody bus cmd { st with m := true }).1, ?_, ?_, rfl⟩
  · unfold reset
    rw [take_free st hm]
    simp only []
    rw [b]
  · exact a

theorem updateTransfers_eq (cmd : ST7565Cmd) (mode : ST7565_MODE) (userBuf : List Nat) :
    updateTransfers cmd mode userBuf =
      pageTransfers cmd mode userBuf 0 ++ pageTransfers cmd mode userBuf 1 ++
      pageTransfers cmd mode userBuf 2 ++ pageTransfers cmd mode userBuf 3 ++
      pageTransfers cmd mode userBuf 4 ++ pageTransfers cmd mode userBuf 5 ++
      pageTransfers cmd mode userBuf 6 ++ pageTransfers cmd mode userBuf 7 := by
  have h8 : List.range 8 = [0, 1, 2, 3, 4, 5, 6, 7] := by decide
  simp [updateTransfers, h8, pagesTransfers]

theorem updateTransfers_length (cmd : ST7565Cmd) (mode : ST7565_MODE) (userBuf : List Nat) :
    (updateTransfers cmd mode userBuf).length = 24 := by
  simp [updateTransfers_eq, pageTransfers]

end ST7565

/-! Section: Lemmas on the SSD1306 driver -/

namespace mono_lcd_lib_ssd1306

theorem update_releases (bus : Bus) (st : mono_lcd_lib_ssd1306) (hm : st.mutex = false) :
    ∃ q, update bus st = some q ∧ q.1.mutex = false ∧ (USER_OS_TAKE_MUTEX q.1).isSome := by
  unfold update
  by_cases hf : st.flag = false
  · rw [if_pos hf]
    exact ⟨_, rfl, hm, by simp [USER_OS_TAKE_MUTEX, hm]⟩
  · rw [if_neg hf]
    have ht : USER_OS_TAKE_MUTEX st = some { st with mutex := true } := by
      simp [USER_OS_TAKE_MUTEX, hm]
    rw [ht]
    exact ⟨_, rfl, rfl, rfl⟩

theorem resetBurst_releases (bus : Bus) (st : mono_lcd_lib_ssd1306) (hm : st.mutex = false) :
    ∃ q, resetBurst bus st = some q ∧ q.1.mutex = false := by
  simp [resetBurst, USER_OS_TAKE_MUTEX, USER_OS_GIVE_MUTEX, USER_OS_DELAY_MS, hm]

theorem reset_releases (bus : Bus) (st : mono_lcd_lib_ssd1306) (hm : st.mutex = false) :
    ∃ q, reset bus st = some q ∧ q.1.mutex = false ∧ (USER_OS_TAKE_MUTEX q.1).isSome := by
  obtain ⟨q, hq, hqm⟩ := resetBurst_releases bus st hm
  unfold reset
  rw [hq]
  by_cases hc : check_result q.2 = true
  · simp only [hc, if_true]
    exact ⟨q, rfl, hqm, by simp [USER_OS_TAKE_MUTEX, hqm]⟩
  · simp only [hc]
    exact update_releases bus { q.1 with flag := true } hqm

end mono_lcd_lib_ssd1306

/-! Section: Properties of the page encoder -/

/-- C1: for every 1024-byte user buffer, every mode, page `p < 8`, source column
`c < 128` and bit `s < 8`, the row built by `ST7565::update` for page `p` from a zeroed
row has bit `s` of output byte `d` equal to bit `c % 8` of buffer byte `rowBase + c / 8`,
where `rowBase = (7-p)*128 + (7-s)*16` in the modes IVERT_Y and IVERT_X_AMD_Y and
`p*128 + s*16` otherwise, and `d = 127 - c` in the modes IVERT_X and IVERT_X_AMD_Y and
`d = c` otherwise.  The row has 128 bytes and the source byte lies inside the buffer. -/
theorem encodePage_reference (mode : ST7565_MODE) (userBuf : List Nat) (p c s : Nat)
    (hlen : userBuf.length = 1024) (hp : p < 8) (hc : c < 128) (hs : s < 8) :
    (encodePage mode userBuf p).length = 128 ∧
    (if mode = IVERT_Y ∨ mode = IVERT_X_AMD_Y then (7 - p) * 128 + (7 - s) * 16
      else p * 128 + s * 16) + c / 8 < userBuf.length ∧
    ((encodePage mode userBuf p).getD
        (if mode = IVERT_X ∨ mode = IVERT_X_AMD_Y then 127 - c else c) 0).testBit s =
      (userBuf.getD
        ((if mode = IVERT_Y ∨ mode = IVERT_X_AMD_Y then (7 - p) * 128 + (7 - s) * 16
          else p * 128 + s * 16) + c / 8) 0).testBit (c % 8) := by
  have e : 127 - (127 - c) = c := by omega
  have h127 : 127 - c < 128 := by omega
  refine ⟨encodePage_length mode userBuf p, ?_, ?_⟩
  · rw [hlen]
    cases mode <;> simp <;> omega
  · cases mode
    · show ((encodePage STANDARD userBuf p).getD c 0).testBit s = _
      rw [testBit_STANDARD _ _ _ _ hc]
      simp [hs]
    · show ((encodePage IVERT_X userBuf p).getD (127 - c) 0).testBit s = _
      rw [testBit_IVERT_X _ _ _ _ h127, e]
      simp [hs]
    · show ((encodePage IVERT_Y userBuf p).getD c 0).testBit s = _
      rw [testBit_IVERT_Y _ _ _ _ hc]
      simp [hs]
    · show ((encodePage IVERT_X_AMD_Y userBuf p).getD (127 - c) 0).testBit s = _
      rw [testBit_IVERT_X_AMD_Y _ _ _ _ h127, e]
      simp [hs]

/-- Witness of C1 on the buffer whose only set pixel is `(x = 5, y = 3)`: in STANDARD
mode, page 0, output byte 5 is `0x08` (exactly bit 3 set) and every other output byte
is zero; bit 3 of byte 5 is bit 5 of buffer byte `3 * 16 + 0`. -/
theorem encodePage_reference_witness :
    singlePixelBuf.length = 1024 ∧
    singlePixelBuf.getD (3 * 16 + 0) 0 = 1 <<< 5 ∧
    (encodePage STANDARD singlePixelBuf 0).getD 5 0 = 1 <<< 3 ∧
    (∀ d, d ≠ 5 → (encodePage STANDARD singlePixelBuf 0).getD d 0 = 0) ∧
    ((encodePage STANDARD singlePixelBuf 0).getD 5 0).testBit 3 =
      (singlePixelBuf.getD (0 * 128 + 3 * 16 + 5 / 8) 0).testBit (5 % 8) := by
  refine ⟨singlePixelBuf_length, ?_, ?_, ?_, ?_⟩
  · rw [singlePixelBuf_getD]; rfl
  · rw [encodePage_singlePixel]; rfl
  · intro d hd
    rw [encodePage_singlePixel, if_neg hd]
  · exact (encodePage_reference STANDARD singlePixelBuf 0 5 3 singlePixelBuf_length
      (by decide) (by decide) (by decide)).2.2

/-- C2: for every 1024-byte buffer, page `p < 8` and column `c < 128`, the output in a
mirrored mode is the STANDARD output under the mirror of that mode:
`encode(IVERT_X, p)[c] = encode(STANDARD, p)[127-c]`,
`encode(IVERT_Y, p)[c] = bitReverse8 (encode(STANDARD, 7-p)[c])`,
`encode(IVERT_X_AMD_Y, p)[c] = bitReverse8 (encode(STANDARD, 7-p)[127-c])`;
applying the same mirror to the mirrored output gives back the STANDARD output; and
every pixel `(x, y)` of the buffer is found at `(x, y)`, `(127-x, y)`, `(x, 63-y)`,
`(127-x, 63-y)` of the STANDARD, IVERT_X, IVERT_Y, IVERT_X_AMD_Y output. -/
theorem encodePage_symmetry (userBuf : List Nat) (p c : Nat)
    (_hlen : userBuf.length = 1024) (hp : p < 8) (hc : c < 128) :
    ((encodePage IVERT_X userBuf p).getD c 0 =
        (encodePage STANDARD userBuf p).getD (127 - c) 0 ∧
      (encodePage IVERT_Y userBuf p).getD c 0 =
        bitReverse8 ((encodePage STANDARD userBuf (7 - p)).getD c 0) ∧
      (encodePage IVERT_X_AMD_Y userBuf p).getD c 0 =
        bitReverse8 ((encodePage STANDARD userBuf (7 - p)).getD (127 - c) 0)) ∧
    ((encodePage STANDARD userBuf p).getD c 0 =
        (encodePage IVERT_X userBuf p).getD (127 - c) 0 ∧
      (encodePage STANDARD userBuf p).getD c 0 =
        bitReverse8 ((encodePage IVERT_Y userBuf (7 - p)).getD c 0) ∧
      (encodePage STANDARD userBuf p).getD c 0 =
        bitReverse8 ((encodePage IVERT_X_AMD_Y userBuf (7 - p)).getD (127 - c) 0)) ∧
    (∀ x y, x < 128 → y < 64 →
      lcdPixel STANDARD userBuf x y = bufPixel userBuf x y ∧
      lcdPixel IVERT_X userBuf (127 - x) y = bufPixel userBuf x y ∧
      lcdPixel IVERT_Y userBuf x (63 - y) = bufPixel userBuf x y ∧
      lcdPixel IVERT_X_AMD_Y userBuf (127 - x) (63 - y) = bufPixel userBuf x y) := by
  have e : 127 - (127 - c) = c := by omega
  have h127 : 127 - c < 128 := by omega
  have e7 : 7 - (7 - p) = p := by omega
  refine ⟨⟨?_, ?_, ?_⟩, ⟨?_, ?_, ?_⟩, ?_⟩
  · exact byte_eq_of_bits _ _ _ _ (fun j => testBit_IVERT_X userBuf p c j hc)
      (fun j => testBit_STANDARD userBuf p (127 - c) j h127) (fun j _ => rfl)
  · refine byte_eq_of_bits _ _ _ _ (fun j => testBit_IVERT_Y userBuf p c j hc)
      (fun j => bitReverse8_testBit _ j) (fun j hj => ?_)
    have h7 : 7 - j < 8 := by omega
    rw [testBit_STANDARD _ _ _ _ hc]
    simp [h7]
  · refine byte_eq_of_bits _ _ _ _ (fun j => testBit_IVERT_X_AMD_Y userBuf p c j hc)
      (fun j => bitReverse8_testBit _ j) (fun j hj => ?_)
    have h7 : 7 - j < 8 := by omega
    rw [testBit_STANDARD _ _ _ _ h127]
    simp [h7]
  · refine byte_eq_of_bits _ _ _ _ (fun j => testBit_STANDARD userBuf p c j hc)
      (fun j => testBit_IVERT_X userBuf p (127 - c) j h127) (fun j _ => ?_)
    rw [e]
  · refine byte_eq_of_bits _ _ _ _ (fun j => testBit_STANDARD userBuf p c j hc)
      (fun j => bitReverse8_testBit _ j) (fun j hj => ?_)
    have h7 : 7 - j < 8 := by omega
    have e7j : 7 - (7 - j) = j := by omega
    rw [testBit_IVERT_Y _ _ _ _ hc, e7, e7j]
    simp [h7]
  · refine byte_eq_of_bits _ _ _ _ (fun j => testBit_STANDARD userBuf p c j hc)
      (fun j => bitReverse8_testBit _ j) (fun j hj => ?_)
    have h7 : 7 - j < 8 := by omega
    have e7j : 7 - (7 - j) = j := by omega
    rw [testBit_IVERT_X_AMD_Y _ _ _ _ h127, e7, e7j, e]
    simp [h7]
  · intro x y hx hy
    have hx127 : 127 - x < 128 := by omega
    have ex : 127 - (127 - x) = x := by omega
    have hm : y % 8 < 8 := Nat.mod_lt _ (by norm_num)
    have hm2 : (63 - y) % 8 < 8 := Nat.mod_lt _ (by norm_num)
    have i1 : y / 8 * 128 + y % 8 * 16 = y * 16 := by omega
    have i2 : (7 - (63 - y) / 8) * 128 + (7 - (63 - y) % 8) * 16 = y * 16 := by omega
    unfold lcdPixel bufPixel
    refine ⟨?_, ?_, ?_, ?_⟩
    · rw [testBit_STANDARD _ _ _ _ hx, i1]; simp [hm]
    · rw [testBit_IVERT_X _ _ _ _ hx127, i1, ex]; simp [hm]
    · rw [testBit_IVERT_Y _ _ _ _ hx, i2]; simp [hm2]
    · rw [testBit_IVERT_X_AMD_Y _ _ _ _ hx127, i2, ex]; simp [hm2]

/-- Witness of C2 on the single-pixel buffer at page 0, column 5. -/
theorem encodePage_symmetry_witness :
    (encodePage IVERT_X singlePixelBuf 0).getD 5 0 =
      (encodePage STANDARD singlePixelBuf 0).getD (127 - 5) 0 ∧
    lcdPixel IVERT_X_AMD_Y singlePixelBuf (127 - 5) (63 - 3) = bufPixel singlePixelBuf 5 3 :=
  ⟨(encodePage_symmetry singlePixelBuf 0 5 singlePixelBuf_length (by decide)
      (by decide)).1.1,
   ((encodePage_symmetry singlePixelBuf 0 5 singlePixelBuf_length (by decide)
      (by decide)).2.2 5 3 (by decide) (by decide)).2.2.2⟩

/-! Section: Properties of the ST7565 driver -/

/-- C3: `ST7565::update` on a free mutex issues, for page `p = 0, 1, ..., 7` in that
order, the page-select command `CMD_SET_PAGE | p`, the column-upper command and one
128-byte data burst holding the encoded row of page `p` (24 transfers in all).  If
every transfer succeeds, exactly these 24 transfers are issued and the result is
success.  If transfer number `k` is the first that fails, it is the last transfer
issued and `update` returns exactly its result. -/
theorem update_sequencing (bus : Bus) (cmd : ST7565Cmd) (st : ST7565) (hm : st.m = false) :
    (updateTransfers cmd st.mode st.userBuf).length = 24 ∧
    (∀ p, p < 8 →
      (updateTransfers cmd st.mode st.userBuf)[3 * p]? =
        some (Transfer.tx false false [(cmd.CMD_SET_PAGE ||| p) % 256] 100) ∧
      (updateTransfers cmd st.mode st.userBuf)[3 * p + 1]? =
        some (Transfer.tx false false [cmd.CMD_SET_COLUMN_UPPER % 256] 100) ∧
      (updateTransfers cmd st.mode st.userBuf)[3 * p + 2]? =
        some (Transfer.tx true false (encodePage st.mode st.userBuf p) 100) ∧
      (encodePage st.mode st.userBuf p).length = 128) ∧
    ∃ st' r, ST7565.update bus cmd st = some (st', r) ∧
      ((∀ i, i < 24 → bus (st.log.length + i) = BaseResult.OK) →
        st'.log = st.log ++ updateTransfers cmd st.mode st.userBuf ∧ r = BaseResult.OK) ∧
      (∀ k, k < 24 → (∀ i, i < k → bus (st.log.length + i) = BaseResult.OK) →
        bus (st.log.length + k) ≠ BaseResult.OK →
        st'.log = st.log ++ (updateTransfers cmd st.mode st.userBuf).take (k + 1) ∧
        r = bus (st.log.length + k)) := by
  have hlen := ST7565.updateTransfers_length cmd st.mode st.userBuf
  refine ⟨hlen, ?_, ?_⟩
  · intro p hp
    rw [ST7565.updateTransfers_eq]
    refine ⟨?_, ?_, ?_, encodePage_length _ _ _⟩ <;>
      interval_cases p <;> simp [pageTransfers, commandTransfer]
  · obtain ⟨st', h, hlog, _, _, _⟩ := ST7565.update_spec bus cmd st hm
    refine ⟨st', _, h, ?_, ?_⟩
    · intro hok
      rw [hlog, issueUntilFailure_all_ok bus _ _ _ (by rw [hlen]; exact hok)]
      refine ⟨rfl, ?_⟩
      have hne : updateTransfers cmd st.mode st.userBuf ≠ [] := by
        intro e; rw [e] at hlen; simp at hlen
      simp [hne]
    · intro k hk hok hfail
      rw [hlog, issueUntilFailure_first_fail bus _ _ k _ (by rw [hlen]; exact hk) hok hfail]
      exact ⟨rfl, rfl⟩

/-- Witness of C3: on a fresh device the bus fails at transfer number 4 (the column
command of page 1); `update` issues exactly the first five transfers and returns the
failure. -/
theorem update_sequencing_witness :
    (ST7565.fresh STANDARD singlePixelBuf).m = false ∧
    ∃ st' r, ST7565.update (busFailAt 4) sampleCmd (ST7565.fresh STANDARD singlePixelBuf) =
        some (st', r) ∧
      st'.log = (ST7565.fresh STANDARD singlePixelBuf).log ++
        (updateTransfers sampleCmd STANDARD singlePixelBuf).take (4 + 1) ∧
      r = BaseResult.BUS_ERROR 1 := by
  refine ⟨rfl, ?_⟩
  obtain ⟨_, _, st', r, h, _, hfail⟩ :=
    update_sequencing (busFailAt 4) sampleCmd (ST7565.fresh STANDARD singlePixelBuf) rfl
  refine ⟨st', r, h, ?_⟩
  have hk := hfail 4 (by decide)
    (by
      intro i hi
      have : ¬ (i = 4) := by omega
      simp [busFailAt, ST7565.fresh, this])
    (by simp [busFailAt, ST7565.fresh])
  refine ⟨hk.1, ?_⟩
  rw [hk.2]
  simp [busFailAt, ST7565.fresh]

/-- C9: for every mode, if all 1024 buffer bytes are `0xFF` and every bus transfer
succeeds, `ST7565::update` succeeds and the data bursts among the 24 transfers it
issues are exactly 8 bursts of 128 bytes, every byte equal to `0xFF`. -/
theorem update_allOnes (bus : Bus) (cmd : ST7565Cmd) (st : ST7565) (hm : st.m = false)
    (hbuf : st.userBuf = List.replicate 1024 255)
    (hok : ∀ i, i < 24 → bus (st.log.length + i) = BaseResult.OK) :
    ∃ st' new, ST7565.update bus cmd st = some (st', BaseResult.OK) ∧
      st'.log = st.log ++ new ∧ new.length = 24 ∧
      dataBursts new = List.replicate 8 (List.replicate 128 255) := by
  have hlen := ST7565.updateTransfers_length cmd st.mode st.userBuf
  obtain ⟨st', h, hlog, _, _, _⟩ := ST7565.update_spec bus cmd st hm
  rw [issueUntilFailure_all_ok bus _ _ _ (by rw [hlen]; exact hok)] at h hlog
  have hne : updateTransfers cmd st.mode st.userBuf ≠ [] := by
    intro e; rw [e] at hlen; simp at hlen
  simp only [hne, if_false] at h
  refine ⟨st', _, h, hlog, hlen, ?_⟩
  rw [ST7565.updateTransfers_eq, hbuf]
  simp only [pageTransfers, commandTransfer, List.cons_append, List.nil_append, dataBursts]
  rw [encodePage_allOnes _ 0 (by decide), encodePage_allOnes _ 1 (by decide),
    encodePage_allOnes _ 2 (by decide), encodePage_allOnes _ 3 (by decide),
    encodePage_allOnes _ 4 (by decide), encodePage_allOnes _ 5 (by decide),
    encodePage_allOnes _ 6 (by decide), encodePage_allOnes _ 7 (by decide)]
  rfl

/-- Witness of C9 on a fresh device in mode IVERT_X_AMD_Y with an all-`0xFF` buffer and
a bus on which every transfer succeeds. -/
theorem update_allOnes_witness :
    ∃ st' new, ST7565.update busOk sampleCmd
        (ST7565.fresh IVERT_X_AMD_Y (List.replicate 1024 255)) = some (st', BaseResult.OK) ∧
      st'.log = (ST7565.fresh IVERT_X_AMD_Y (List.replicate 1024 255)).log ++ new ∧
      new.length = 24 ∧
      dataBursts new = List.replicate 8 (List.replicate 128 255) :=
  update_allOnes busOk sampleCmd (ST7565.fresh IVERT_X_AMD_Y (List.replicate 1024 255))
    rfl rfl (fun _ _ => rfl)

/-- C5: early abort in `reset()`.  Family P: the init sequence is the nine commands
bias, ADC direction, COM direction, start line, power-control|0x4, power-control|0x6,
power-control|0x7, resistor-ratio|0x6, all-points-normal, in that order; on a free
mutex, if the commands before number `k` (counted from 0) succeed and command `k` fails,
exactly the first `k + 1` commands are issued and `reset` returns the result of command
`k`; if all nine succeed, all nine are issued and `reset` returns success.  Family L: on
a free mutex, if the init-table burst fails, `reset` returns that failure, the ready
flag is unchanged (so it remains false) and the burst is the only bus transfer. -/
theorem reset_early_abort (bus : Bus) (cmd : ST7565Cmd) (st : ST7565)
    (stL : mono_lcd_lib_ssd1306) (hm : st.m = false) (hmL : stL.mutex = false) :
    (resetCommands cmd =
      [cmd.CMD_SET_BIAS_9, cmd.CMD_SET_ADC_REVERSE, cmd.CMD_SET_COM_NORMAL,
       cmd.CMD_SET_DISP_START_LINE, cmd.CMD_SET_POWER_CONTROL ||| 0x4,
       cmd.CMD_SET_POWER_CONTROL ||| 0x6, cmd.CMD_SET_POWER_CONTROL ||| 0x7,
       cmd.CMD_SET_RESISTOR_RATIO ||| 0x6, cmd.CMD_SET_ALLPTS_NORMAL]) ∧
    (∃ st' r, ST7565.reset bus cmd st = some (st', r) ∧
      ((∀ i, i < 9 → bus (st.log.length + i) = BaseResult.OK) →
        st'.log = st.log ++ (resetCommands cmd).map commandTransfer ∧ r = BaseResult.OK) ∧
      (∀ k, k < 9 → (∀ i, i < k → bus (st.log.length + i) = BaseResult.OK) →
        bus (st.log.length + k) ≠ BaseResult.OK →
        st'.log = st.log ++ ((resetCommands cmd).map commandTransfer).take (k + 1) ∧
        r = bus (st.log.length + k))) ∧
    (bus stL.log.length ≠ BaseResult.OK →
      ∃ stL', mono_lcd_lib_ssd1306.reset bus stL = some (stL', bus stL.log.length) ∧
        stL'.flag = stL.flag ∧
        stL'.log = stL.log ++ [Transfer.tx false false ssd1306_init_command 100]) := by
  have hlen : ((resetCommands cmd).map commandTransfer).length = 9 := by
    simp [resetCommands]
  refine ⟨rfl, ?_, ?_⟩
  · obtain ⟨st', h, hlog, _⟩ := ST7565.reset_spec bus cmd st hm
    refine ⟨st', _, h, ?_, ?_⟩
    · intro hok
      rw [hlog, issueUntilFailure_all_ok bus _ _ _ (by rw [hlen]; exact hok)]
      exact ⟨rfl, by simp [resetCommands]⟩
    · intro k hk hok hfail
      rw [hlog, issueUntilFailure_first_fail bus _ _ k _ (by rw [hlen]; exact hk) hok hfail]
      exact ⟨rfl, rfl⟩
  · intro hfail
    simp [mono_lcd_lib_ssd1306.reset, mono_lcd_lib_ssd1306.resetBurst,
      mono_lcd_lib_ssd1306.USER_OS_TAKE_MUTEX, mono_lcd_lib_ssd1306.USER_OS_GIVE_MUTEX,
      mono_lcd_lib_ssd1306.USER_OS_DELAY_MS, mono_lcd_lib_ssd1306.tx, check_result, hmL,
      hfail, ssd1306_init_command]

/-- Witness of C5: on fresh devices the bus fails at transfer number 0; the ST7565
`reset` issues only the bias command, the SSD1306 `reset` only the init burst, and both
return the failure. -/
theorem reset_early_abort_witness :
    (∃ st' r, ST7565.reset (busFailAt 0) sampleCmd (ST7565.fresh STANDARD singlePixelBuf) =
        some (st', r) ∧
      st'.log = [commandTransfer sampleCmd.CMD_SET_BIAS_9] ∧ r = BaseResult.BUS_ERROR 1) ∧
    (∃ stL', mono_lcd_lib_ssd1306.reset (busFailAt 0)
        (mono_lcd_lib_ssd1306.unready singlePixelBuf) = some (stL', BaseResult.BUS_ERROR 1) ∧
      stL'.flag = false ∧
      stL'.log = [Transfer.tx false false ssd1306_init_command 100]) := by
  obtain ⟨_, ⟨st', r, h, _, hfail⟩, hL⟩ :=
    reset_early_abort (busFailAt 0) sampleCmd (ST7565.fresh STANDARD singlePixelBuf)
      (mono_lcd_lib_ssd1306.unready singlePixelBuf) rfl rfl
  constructor
  · refine ⟨st', r, h, ?_⟩
    have hk := hfail 0 (by decide) (by intro i hi; omega)
      (by simp [busFailAt, ST7565.fresh])
    refine ⟨?_, ?_⟩
    · rw [hk.1]; rfl
    · rw [hk.2]; rfl
  · obtain ⟨stL', h1, h2, h3⟩ := hL (by simp [busFailAt, mono_lcd_lib_ssd1306.unready])
    exact ⟨stL', h1, h2, h3⟩

/-! Section: Properties of the SSD1306 driver -/

/-- C4: with the ready flag false, `mono_lcd_lib_ssd1306::update` returns `ERROR_INIT`
and leaves the whole state unchanged: no bus transfer is logged, and control lines,
mutex and pixel buffer are as before. -/
theorem update_not_initialized (bus : Bus) (st : mono_lcd_lib_ssd1306)
    (hflag : st.flag = false) :
    ∃ st', mono_lcd_lib_ssd1306.update bus st = some (st', BaseResult.ERROR_INIT) ∧
      st'.log = st.log ∧ st'.dc = st.dc ∧ st'.cs = st.cs ∧ st'.res = st.res ∧
      st'.mutex = st.mutex ∧ st'.buf = st.buf ∧ st' = st := by
  refine ⟨st, ?_, rfl, rfl, rfl, rfl, rfl, rfl, rfl⟩
  simp [mono_lcd_lib_ssd1306.update, hflag]

/-- Witness of C4 on a fresh (not yet reset) device. -/
theorem update_not_initialized_witness :
    mono_lcd_lib_ssd1306.update busOk (mono_lcd_lib_ssd1306.unready singlePixelBuf) =
      some (mono_lcd_lib_ssd1306.unready singlePixelBuf, BaseResult.ERROR_INIT) := by
  obtain ⟨st', h, _, _, _, _, _, _, e⟩ :=
    update_not_initialized busOk (mono_lcd_lib_ssd1306.unready singlePixelBuf) rfl
  rw [h, e]

/-- C6 (evaluation of the code): `set_pos_to_lcd(0, 0)` puts the mode line in command
mode and sends one 3-byte burst, but its first byte is `0x01`, not the column low
nibble `0x00`: the code computes `(x & 0x0f) | 0x01`. -/
theorem set_pos_to_lcd_zero_zero :
    (mono_lcd_lib_ssd1306.set_pos_to_lcd busOk
        (mono_lcd_lib_ssd1306.unready singlePixelBuf) 0 0).1.log =
      [Transfer.tx false true [0x01, 0x10, 0xB0] 100] ∧
    (mono_lcd_lib_ssd1306.set_pos_to_lcd busOk
        (mono_lcd_lib_ssd1306.unready singlePixelBuf) 0 0).1.log ≠
      [Transfer.tx false true [0x00, 0x10, 0xB0] 100] := by
  constructor
  · rfl
  · decide

/-- C7: with the ready flag true and the mutex free, `update()` first issues the
address burst of `set_pos_to_lcd(0, 0)`; if it succeeds, `update()` issues exactly one
data-mode burst whose 1024 bytes are the pixel buffer in order and returns the result of
that burst; if the address burst fails, no data burst is issued and that failure is
returned.  The pixel buffer is unchanged in every case. -/
theorem update_streams_buffer (bus : Bus) (st : mono_lcd_lib_ssd1306)
    (hflag : st.flag = true) (hlen : st.buf.length = 1024) (hm : st.mutex = false) :
    (mono_lcd_lib_ssd1306.set_pos_to_lcd bus { st with mutex := true, cs := false } 0 0).1.log
        = st.log ++ [addressBurst00] ∧
    ∃ st' r, mono_lcd_lib_ssd1306.update bus st = some (st', r) ∧
      st'.buf = st.buf ∧
      (bus st.log.length = BaseResult.OK →
        st'.log = st.log ++ [addressBurst00, Transfer.tx true false st.buf 100] ∧
        r = bus (st.log.length + 1)) ∧
      (bus st.log.length ≠ BaseResult.OK →
        st'.log = st.log ++ [addressBurst00] ∧ r = bus st.log.length) := by
  refine ⟨rfl, ?_⟩
  have htake : List.take 1024 st.buf = st.buf :=
    List.take_of_length_le (Nat.le_of_eq hlen)
  by_cases h0 : bus st.log.length = BaseResult.OK
  · simp [mono_lcd_lib_ssd1306.update, mono_lcd_lib_ssd1306.set_pos_to_lcd,
      mono_lcd_lib_ssd1306.USER_OS_TAKE_MUTEX, mono_lcd_lib_ssd1306.USER_OS_GIVE_MUTEX,
      mono_lcd_lib_ssd1306.tx, hflag, hm, h0, htake, addressBurst00]
    exact ⟨_, _, ⟨rfl, rfl⟩, rfl, rfl, rfl⟩
  · simp [mono_lcd_lib_ssd1306.update, mono_lcd_lib_ssd1306.set_pos_to_lcd,
      mono_lcd_lib_ssd1306.USER_OS_TAKE_MUTEX, mono_lcd_lib_ssd1306.USER_OS_GIVE_MUTEX,
      mono_lcd_lib_ssd1306.tx, hflag, hm, h0, addressBurst00]
    exact ⟨_, _, ⟨rfl, rfl⟩, rfl, rfl, rfl⟩

/-- Witness of C7 on a ready device whose address burst succeeds and whose data burst
fails: both bursts are issued, the data burst carries the buffer, and its failure is
returned. -/
theorem update_streams_buffer_witness :
    ∃ st' r, mono_lcd_lib_ssd1306.update (busFailAt 1)
        { mono_lcd_lib_ssd1306.unready singlePixelBuf with flag := true } = some (st', r) ∧
      st'.buf = singlePixelBuf ∧
      st'.log = [addressBurst00, Transfer.tx true false singlePixelBuf 100] ∧
      r = BaseResult.BUS_ERROR 1 := by
  obtain ⟨_, st', r, h, hb, hok, _⟩ :=
    update_streams_buffer (busFailAt 1)
      { mono_lcd_lib_ssd1306.unready singlePixelBuf with flag := true } rfl
      singlePixelBuf_length rfl
  have h2 := hok (by simp [busFailAt, mono_lcd_lib_ssd1306.unready])
  refine ⟨st', r, h, hb, h2.1, ?_⟩
  rw [h2.2]
  rfl

/-! Section: The mutex -/

/-- C8: every operation that takes the mutex returns, for every sequence of bus
results, with the mutex free whenever it was free on entry, so that a following
operation can take it: Family P `setContrast`, `reset`, `on`, `off`, `update`,
`lcdClear`, `bufClear` and Family L `reset`, `update`. -/
theorem mutex_released (bus : Bus) (cmd : ST7565Cmd) (st : ST7565)
    (stL : mono_lcd_lib_ssd1306) (val : Nat) (hm : st.m = false)
    (hmL : stL.mutex = false) :
    (∃ q, ST7565.setContrast bus cmd st val = some q ∧ q.1.m = false ∧
      (ST7565.USER_OS_TAKE_MUTEX q.1).isSome) ∧
    (∃ q, ST7565.reset bus cmd st = some q ∧ q.1.m = false ∧
      (ST7565.USER_OS_TAKE_MUTEX q.1).isSome) ∧
    (∃ q, ST7565.on_ bus cmd st = some q ∧ q.1.m = false ∧
      (ST7565.USER_OS_TAKE_MUTEX q.1).isSome) ∧
    (∃ q, ST7565.off bus cmd st = some q ∧ q.1.m = false ∧
      (ST7565.USER_OS_TAKE_MUTEX q.1).isSome) ∧
    (∃ q, ST7565.update bus cmd st = some q ∧ q.1.m = false ∧
      (ST7565.USER_OS_TAKE_MUTEX q.1).isSome) ∧
    (∃ q, ST7565.lcdClear bus cmd st = some q ∧ q.1.m = false ∧
      (ST7565.USER_OS_TAKE_MUTEX q.1).isSome) ∧
    (∃ st', ST7565.bufClear st = some st' ∧ st'.m = false ∧
      (ST7565.USER_OS_TAKE_MUTEX st').isSome) ∧
    (∃ q, mono_lcd_lib_ssd1306.reset bus stL = some q ∧ q.1.mutex = false ∧
      (mono_lcd_lib_ssd1306.USER_OS_TAKE_MUTEX q.1).isSome) ∧
    (∃ q, mono_lcd_lib_ssd1306.update bus stL = some q ∧ q.1.mutex = false ∧
      (mono_lcd_lib_ssd1306.USER_OS_TAKE_MUTEX q.1).isSome) := by
  have ht := ST7565.take_free st hm
  refine ⟨?_, ?_, ?_, ?_, ?_, ?_, ?_, ?_, ?_⟩
  · unfold ST7565.setContrast; rw [ht]; exact ⟨_, rfl, rfl, rfl⟩
  · unfold ST7565.reset; rw [ht]; exact ⟨_, rfl, rfl, rfl⟩
  · unfold ST7565.on_; rw [ht]; exact ⟨_, rfl, rfl, rfl⟩
  · unfold ST7565.off; rw [ht]; exact ⟨_, rfl, rfl, rfl⟩
  · unfold ST7565.update; rw [ht]; exact ⟨_, rfl, rfl, rfl⟩
  · unfold ST7565.lcdClear; rw [ht]; exact ⟨_, rfl, rfl, rfl⟩
  · unfold ST7565.bufClear; rw [ht]; exact ⟨_, rfl, rfl, rfl⟩
  · exact mono_lcd_lib_ssd1306.reset_releases bus stL hmL
  · exact mono_lcd_lib_ssd1306.update_releases bus stL hmL

/-- Witness of C8 on fresh devices with a bus whose transfer number 2 (the data burst of
page 0 in the ST7565 `update`) fails. -/
theorem mutex_released_witness :
    (∃ q, ST7565.update (busFailAt 2) sampleCmd (ST7565.fresh STANDARD singlePixelBuf) =
      some q ∧ q.1.m = false ∧ (ST7565.USER_OS_TAKE_MUTEX q.1).isSome) ∧
    (∃ q, mono_lcd_lib_ssd1306.reset (busFailAt 2)
      (mono_lcd_lib_ssd1306.unready singlePixelBuf) = some q ∧ q.1.mutex = false ∧
      (mono_lcd_lib_ssd1306.USER_OS_TAKE_MUTEX q.1).isSome) :=
  ⟨(mutex_released (busFailAt 2) sampleCmd (ST7565.fresh STANDARD singlePixelBuf)
      (mono_lcd_lib_ssd1306.unready singlePixelBuf) 0 rfl rfl).2.2.2.2.1,
   (mutex_released (busFailAt 2) sampleCmd (ST7565.fresh STANDARD singlePixelBuf)
      (mono_lcd_lib_ssd1306.unready singlePixelBuf) 0 rfl rfl).2.2.2.2.2.2.2.1⟩

/-- C10 (evaluation of the code): `mono_lcd_lib_ssd1306::reset` calls `cs->reset()` a
second time after the init burst, so the device is still selected (`cs` low) when the
mutex is released, whether the burst succeeded or failed; when the burst fails, `reset`
returns with the device selected. -/
theorem reset_leaves_selected :
    (mono_lcd_lib_ssd1306.resetBurst busOk (mono_lcd_lib_ssd1306.unready singlePixelBuf)).map
        (fun q => (q.1.cs, q.1.mutex, q.2)) = some (false, false, BaseResult.OK) ∧
    (mono_lcd_lib_ssd1306.resetBurst (busFailAt 0)
        (mono_lcd_lib_ssd1306.unready singlePixelBuf)).map
        (fun q => (q.1.cs, q.1.mutex, q.2)) = some (false, false, BaseResult.BUS_ERROR 1) ∧
    (mono_lcd_lib_ssd1306.reset (busFailAt 0) (mono_lcd_lib_ssd1306.unready singlePixelBuf)).map
        (fun q => (q.1.cs, q.1.mutex, q.1.flag, q.2)) =
      some (false, false, false, BaseResult.BUS_ERROR 1) := by
  refine ⟨rfl, rfl, rfl⟩

end MonoLcd
